import Mathlib

/-!
Shallow embedding of the browser client in `src/frontend/src/App.js`
(the "lyte" blog platform front end).

The file `App.js` holds two concatenated revisions of the same single-page
component tree, separated at line 1416.  The primary revision (lines
1-1416) contains `AuthProvider` (lines 10-61), `PostDetailModal`
(lines 116-664), `PostCard` (lines 666-1096) and `BlogApp`
(lines 1242-1397).  The older revision (lines 1417-2111) contains its own
`loadPosts` (lines 1961-1991) and `handleInteract` (lines 1993-2008),
which differ from the primary ones and are embedded separately below
with a `Rev2` suffix.

Network effects are embedded by passing the outcome of each `fetch` as an
explicit argument of type `FetchResult`: `ok v` is a response with
`res.ok` true whose parsed JSON body is `v`, `httpError s` is a response
with `res.ok` false and status `s`, and `transportError` is a rejected
fetch (the `catch` branch).  Browser `localStorage` is embedded as the
`storedToken`/`storedUser` fields of `SessionState`; JSON
serialization of the user object is abstracted away (`storedUser` holds
the `User` value that `JSON.parse` of the stored string would yield).
-/

/-- The `author` object carried by a post (`post.author` in `App.js`). -/
structure Author where
  username : String
  avatar : String
deriving Repr, DecidableEq

/-- A post object as the client receives and stores it.  Fields follow the
data model used throughout `App.js` (`likes`, `dislikes`, `user_liked`,
`user_disliked`, `comment_count`, ...).  A JS object that lacks
`user_liked`/`user_disliked`/`updated_at` (such as the demo fallback post
built in `loadPosts`) is embedded with the defaults `false`/`none`:
JavaScript reads the missing property as `undefined`, which is falsy
exactly where these fields are consumed. -/
structure Post where
  id : Nat
  title : String
  content : String
  images : List String
  author : Author
  created_at : String
  updated_at : Option String := none
  likes : Nat
  dislikes : Nat
  user_liked : Bool := false
  user_disliked : Bool := false
  comment_count : Nat
deriving Repr, DecidableEq

/-- A comment object (`GET /posts/id/comments` elements). -/
structure Comment where
  id : Nat
  content : String
  user : String
  created_at : String
deriving Repr, DecidableEq

/-- Outcome of one `fetch` call as observed by the `App.js` handlers. -/
inductive FetchResult (α : Type) where
  | ok (value : α)
  | httpError (status : Nat)
  | transportError
deriving Repr, DecidableEq

/-- The demo fallback post that the primary revision's `loadPosts`
(App.js lines 1258-1270) fabricates when `GET /posts` answers with a
non-ok status.  `new Date().toISOString()` is passed in as `now`. -/
def demoFallbackPost (now : String) : Post :=
  { id := 1
    title := "Welcome to the Blog Platform!"
    content := "This is a demo post to show how the platform works. You can like, comment, and share posts. This is a longer content that demonstrates the truncation feature. When content is longer than 300 characters, it gets truncated and shows a 'See more' button. Users can click to expand the full content, similar to how Twitter handles long posts. This provides a clean interface while still allowing access to full content when needed."
    images := []
    author := { username := "Demo Admin", avatar := "" }
    created_at := now
    likes := 5
    dislikes := 0
    comment_count := 2 }

/-- `loadPosts` of the primary revision (App.js lines 1250-1278): on an ok
response the cache is replaced by the response body; on a non-ok response
it is set to the one-element demo fallback list; on a rejected fetch
(`catch`) it is set to `[]`. -/
def loadPosts (result : FetchResult (List Post)) (now : String) : List Post :=
  match result with
  | .ok data => data
  | .httpError _ => [demoFallbackPost now]
  | .transportError => []

/-- The demo fallback post of the older revision's `loadPosts`
(App.js lines 1970-1982); same fields, shorter content. -/
def demoFallbackPostRev2 (now : String) : Post :=
  { id := 1
    title := "Welcome to the Blog Platform!"
    content := "This is a demo post to show how the platform works. You can like, comment, and share posts."
    images := []
    author := { username := "Demo Admin", avatar := "" }
    created_at := now
    likes := 5
    dislikes := 0
    comment_count := 2 }

/-- `loadPosts` of the older revision (App.js lines 1961-1991); same
branch structure as the primary one. -/
def loadPostsRev2 (result : FetchResult (List Post)) (now : String) : List Post :=
  match result with
  | .ok data => data
  | .httpError _ => [demoFallbackPostRev2 now]
  | .transportError => []

/-- The cache update performed on a successful interaction (App.js line
1288): `prevPosts.map(p => p.id === updatedPost.id ? updatedPost : p)`. -/
def patchPosts (prevPosts : List Post) (updatedPost : Post) : List Post :=
  prevPosts.map fun p => if p.id = updatedPost.id then updatedPost else p

/-- The mutable state of `BlogApp` (App.js lines 1244-1246) that the
claims are about: the post collection cache `posts` and the selected-post
projection `selectedPost` driving `PostDetailModal`. -/
structure BlogAppState where
  posts : List Post
  selectedPost : Option Post
deriving Repr, DecidableEq

/-- `handleInteract` of the primary revision (App.js lines 1280-1293): the
request is issued first; if the response is ok, the server's updated post
is patched into `posts`; a non-ok response does nothing; a rejected fetch
is caught and only logged.  `selectedPost` is never touched. -/
def handleInteract (s : BlogAppState) (result : FetchResult Post) : BlogAppState :=
  match result with
  | .ok updatedPost => { s with posts := patchPosts s.posts updatedPost }
  | .httpError _ => s
  | .transportError => s

/-- `handleInteract` of the older revision (App.js lines 1993-2008): an ok
response triggers a full `loadPosts()`; a non-ok response does nothing; a
rejected fetch also triggers `loadPosts()`.  `reloadResult`/`now` feed
that inner reload. -/
def handleInteractRev2 (posts : List Post) (result : FetchResult Post)
    (reloadResult : FetchResult (List Post)) (now : String) : List Post :=
  match result with
  | .ok _ => loadPostsRev2 reloadResult now
  | .httpError _ => posts
  | .transportError => loadPostsRev2 reloadResult now

/-- One observable step of a like/dislike interaction, used to state
ordering properties of `handleInteract`. -/
inductive InteractStep where
  | issueRequest (postId : Nat) (action : String)
  | patchCache (updatedPost : Post)
  | reloadCache
deriving Repr, DecidableEq

/-- Whether a step mutates the post collection cache. -/
def InteractStep.mutatesCache : InteractStep → Bool
  | .patchCache _ => true
  | .reloadCache => true
  | .issueRequest _ _ => false

/-- Whether a step issues the network call. -/
def InteractStep.issuesRequest : InteractStep → Bool
  | .issueRequest _ _ => true
  | _ => false

/-- The sequence of observable steps performed by the primary revision's
`handleInteract` (App.js lines 1280-1293) for one invocation: the
`fetch` of `POST /posts/postId/action` comes first, then, only when the
response is ok, the single `setPosts` patch; no step at all follows a
failure (the `catch` branch only logs). -/
def handleInteractTrace (postId : Nat) (action : String)
    (result : FetchResult Post) : List InteractStep :=
  InteractStep.issueRequest postId action ::
    match result with
    | .ok updatedPost => [InteractStep.patchCache updatedPost]
    | .httpError _ => []
    | .transportError => []

/-- The guard wrapped around `onInteract` by `PostCard.handleInteract`
(App.js lines 738-742) and `PostDetailModal.handleInteract` (lines
178-181): with no session token the call returns at once and no step of
`BlogApp.handleInteract` runs. -/
def guardedInteractTrace (token : Option String) (postId : Nat)
    (action : String) (result : FetchResult Post) : List InteractStep :=
  match token with
  | none => []
  | some _ => handleInteractTrace postId action result

/-- The guarded state transition: `PostCard`/`PostDetailModal` return
without calling `onInteract` when no token is present. -/
def guardedInteract (token : Option String) (s : BlogAppState)
    (result : FetchResult Post) : BlogAppState :=
  match token with
  | none => s
  | some _ => handleInteract s result

/-- The user object held by `AuthProvider` and persisted to storage. -/
structure User where
  id : Nat
  username : String
  is_admin : Bool
deriving Repr, DecidableEq

/-- The body of a successful `POST /auth/twitter` response. -/
structure AuthResponse where
  token : String
  user : User
deriving Repr, DecidableEq

/-- The session state owned by `AuthProvider` (App.js lines 10-61):
in-memory `token`/`user` React state plus the `localStorage` entries
under the keys "token" and "user". -/
structure SessionState where
  token : Option String
  user : Option User
  storedToken : Option String
  storedUser : Option User
deriving Repr, DecidableEq

/-- The error taxonomy named by the specification for the session store. -/
inductive AuthError where
  | authenticationFailed
deriving Repr, DecidableEq

/-- `login` of `AuthProvider` (App.js lines 27-47).  On an ok response the
token and user are set in memory and persisted.  On a non-ok response the
handler throws `Error('Login failed')`, which its own `catch` swallows
with `console.error`; a rejected fetch lands in the same `catch`.  In
both failure cases the session state is untouched and the returned
promise resolves normally, so the second component — the error signalled
to the caller — is `none` on every path. -/
def login (s : SessionState) (response : FetchResult AuthResponse) :
    SessionState × Option AuthError :=
  match response with
  | .ok data =>
      ({ token := some data.token
         user := some data.user
         storedToken := some data.token
         storedUser := some data.user }, none)
  | .httpError _ => (s, none)
  | .transportError => (s, none)

/-- `logout` of `AuthProvider` (App.js lines 49-54): removes the two
storage keys and nulls the in-memory token and user.  Nothing else runs:
there is no anonymous re-bootstrap in the source. -/
def logout (_s : SessionState) : SessionState :=
  { token := none, user := none, storedToken := none, storedUser := none }

/-- `AppContent` (App.js lines 1408-1416) renders the `TwitterLogin`
screen exactly when `user` is null (`!user ? <TwitterLogin /> :
<BlogApp />`). -/
def appContentShowsLogin (s : SessionState) : Bool :=
  s.user.isNone

/-- `truncatedContent` of `PostCard` (App.js lines 675-678):
`post.content.length > 300 ? post.content.substring(0, 300) + '...' :
post.content`.  JS string indices (UTF-16 units) are modelled by Lean
character positions. -/
def truncatedContent (post : Post) : String :=
  if post.content.length > 300 then post.content.take 300 ++ "..."
  else post.content

/-- The content text rendered by the collapsed/expanded feed card
(App.js line 839): `isExpanded ? post.content : truncatedContent`. -/
def displayedCardContent (post : Post) (isExpanded : Bool) : String :=
  if isExpanded then post.content else truncatedContent post

/-- Whether the card renders the See-more/Show-less toggle (App.js line
841): `post.content.length > 300`. -/
def showsExpandToggle (post : Post) : Bool :=
  post.content.length > 300

/-- `loadComments` of `PostDetailModal` (App.js lines 128-140): an ok
response replaces the comment list, a non-ok response leaves it
unchanged, a rejected fetch sets it to `[]`. -/
def loadComments (prev : List Comment) (result : FetchResult (List Comment)) :
    List Comment :=
  match result with
  | .ok data => data
  | .httpError _ => prev
  | .transportError => []

/-- The backend state visible through the endpoints the client calls:
the post list served by `GET /posts` and, for each post id, the comment
list served by `GET /posts/id/comments`. -/
structure ServerState where
  posts : List Post
  commentsFor : Nat → List Comment

/-- Modelled from the spec: the backend handler of
`POST /posts/id/comments` (section 6 of the specification; the backend is
an external collaborator and its code is not under `src/`).  Per sections
3 and 4.4, the created comment is appended in creation order and the
post's `comment_count` is incremented. -/
def serverPostComment (srv : ServerState) (postId : Nat) (c : Comment) :
    ServerState :=
  { posts := srv.posts.map fun p =>
      if p.id = postId then { p with comment_count := p.comment_count + 1 } else p
    commentsFor := fun i =>
      if i = postId then srv.commentsFor postId ++ [c] else srv.commentsFor i }

/-- The client state read by the two views after a comment is posted:
the collection cache (feed cards) and the modal's local comment list. -/
structure CommentViews where
  cachePosts : List Post
  modalComments : List Comment
deriving Repr, DecidableEq

/-- The success branch of `PostDetailModal.handleComment` (App.js lines
153-176) together with the fetches it triggers: when the POST answers ok,
the modal clears the input, re-fetches the comment list (`loadComments`)
and invokes `onComment`, which `BlogApp` binds to `loadPosts` (App.js
line 1391).  Both re-fetches are taken to succeed against the same
backend state, now `serverPostComment srv postId c`. -/
def handleCommentSuccess (srv : ServerState) (postId : Nat) (c : Comment)
    (views : CommentViews) (now : String) : CommentViews :=
  let srv2 := serverPostComment srv postId c
  { cachePosts := loadPosts (.ok srv2.posts) now
    modalComments := loadComments views.modalComments (.ok (srv2.commentsFor postId)) }

/-- A like or dislike click. -/
inductive InteractAction where
  | like
  | dislike
deriving Repr, DecidableEq

/-- Modelled from the spec: the like/dislike toggle arithmetic of
sections 3 and 8 of the specification.  The client never computes it —
`handleInteract` (App.js lines 1280-1293) installs whatever post the
backend returns — so the mutation itself lives in the external backend,
outside `src/`.  Toggling a flag that is set clears it and decrements its
counter; toggling a flag that is clear sets it, increments its counter,
and, when the opposite flag was set, clears the opposite flag and
decrements the opposite counter. -/
def applyToggle : InteractAction → Post → Post
  | .like, p =>
      if p.user_liked then
        { p with user_liked := false, likes := p.likes - 1 }
      else
        { p with user_liked := true, likes := p.likes + 1,
                 user_disliked := false,
                 dislikes := if p.user_disliked then p.dislikes - 1 else p.dislikes }
  | .dislike, p =>
      if p.user_disliked then
        { p with user_disliked := false, dislikes := p.dislikes - 1 }
      else
        { p with user_disliked := true, dislikes := p.dislikes + 1,
                 user_liked := false,
                 likes := if p.user_liked then p.likes - 1 else p.likes }

/-- The post reached after a sequence of like/dislike toggles. -/
def runToggles (acts : List InteractAction) (p : Post) : Post :=
  acts.foldl (fun q a => applyToggle a q) p

/-- Number of steps of the sequence at which `user_liked` goes from
`false` to `true` (like-activations). -/
def likeActivations : List InteractAction → Post → Nat
  | [], _ => 0
  | a :: rest, p =>
      let q := applyToggle a p
      (if !p.user_liked && q.user_liked then 1 else 0) + likeActivations rest q

/-- Number of steps at which `user_liked` goes from `true` to `false`
(like-deactivations; a dislike toggle that clears the like flag counts). -/
def likeDeactivations : List InteractAction → Post → Nat
  | [], _ => 0
  | a :: rest, p =>
      let q := applyToggle a p
      (if p.user_liked && !q.user_liked then 1 else 0) + likeDeactivations rest q

/-- Number of steps at which `user_disliked` goes from `false` to
`true`. -/
def dislikeActivations : List InteractAction → Post → Nat
  | [], _ => 0
  | a :: rest, p =>
      let q := applyToggle a p
      (if !p.user_disliked && q.user_disliked then 1 else 0) + dislikeActivations rest q

/-- Number of steps at which `user_disliked` goes from `true` to
`false`. -/
def dislikeDeactivations : List InteractAction → Post → Nat
  | [], _ => 0
  | a :: rest, p =>
      let q := applyToggle a p
      (if p.user_disliked && !q.user_disliked then 1 else 0) + dislikeDeactivations rest q

/-- Well-formedness of a post's interaction fields: the two flags are
mutually exclusive and a set flag accounts for at least one unit of its
counter (true of every server-produced post; preserved by the toggles). -/
def GoodInteraction (p : Post) : Prop :=
  ¬(p.user_liked = true ∧ p.user_disliked = true)
  ∧ (p.user_liked = true → 1 ≤ p.likes)
  ∧ (p.user_disliked = true → 1 ≤ p.dislikes)

instance (p : Post) : Decidable (GoodInteraction p) := by
  unfold GoodInteraction; infer_instance

/-- The post rendered by the feed card for a given id: `BlogApp` passes
each element of `posts` to a `PostCard` (App.js lines 1358-1369), so the
card for `postId` shows the first cache entry with that id. -/
def feedCardView (s : BlogAppState) (postId : Nat) : Option Post :=
  s.posts.find? fun p => p.id == postId

/-- The post rendered by the detail view: `PostDetailModal` receives
`post={selectedPost}` (App.js line 1387) and reads `post.likes`,
`post.dislikes`, `post.user_liked`, `post.user_disliked` from it
(App.js lines 516-532). -/
def detailViewPost (s : BlogAppState) : Option Post :=
  s.selectedPost

/-- The specification's ordering property for one interaction, stated
over a step trace: some cache mutation strictly precedes the step that
issues the network call.  Written from the spec's words (sections 4.3 and
5), to be compared with the trace the source produces. -/
def specMutationBeforeRequest (t : List InteractStep) : Prop :=
  ∃ i j : Fin t.length, (i : Nat) < (j : Nat)
    ∧ (t.get i).mutatesCache = true
    ∧ (t.get j).issuesRequest = true

instance (t : List InteractStep) : Decidable (specMutationBeforeRequest t) := by
  unfold specMutationBeforeRequest; infer_instance

/-- A concrete post used to evaluate the handlers: `id` 1, 5 likes, not
yet liked by the viewer. -/
def postA : Post :=
  { id := 1
    title := "First post"
    content := "hello"
    images := []
    author := { username := "alice", avatar := "" }
    created_at := "2024-01-01"
    likes := 5
    dislikes := 0
    comment_count := 2 }

/-- The post the backend would return for a successful like on `postA`:
likes incremented, viewer flag set. -/
def likedPostA : Post :=
  { postA with likes := 6, user_liked := true }

/-- A fresh authoritative snapshot of `postA` as a later `reload()` would
deliver it (other viewers interacted meanwhile). -/
def freshPostA : Post :=
  { postA with likes := 7 }

/-- A second concrete post with a different id. -/
def postB : Post :=
  { postA with id := 2, title := "Second post", likes := 0 }

/-- A concrete user for session examples. -/
def user0 : User :=
  { id := 7, username := "alice", is_admin := true }

/-- A concrete established session for session examples. -/
def session0 : SessionState :=
  { token := some "tok0"
    user := some user0
    storedToken := some "tok0"
    storedUser := some user0 }

/-- A post whose content is exactly 301 characters, exceeding the
300-character card limit by one. -/
def longPost : Post :=
  { postA with content := String.mk (List.replicate 301 'a') }

/-- The initial post of the specification's section 8 scenario: zero
counters, both flags clear. -/
def scenarioPost : Post :=
  { postA with likes := 0, dislikes := 0, comment_count := 0 }

/-- A concrete backend state for the comment-flow examples. -/
def srv0 : ServerState :=
  { posts := [postA], commentsFor := fun _ => [] }

/-- A concrete comment. -/
def comment0 : Comment :=
  { id := 10, content := "nice", user := "bob", created_at := "2024-01-02" }

/-- The client views in sync with `srv0`, before the comment is posted. -/
def views0 : CommentViews :=
  { cachePosts := [postA], modalComments := [] }

/-- C5: patching the post collection cache for a given post id applies
the update only to entries whose id matches, leaves every other entry and
the list order unchanged (stated pointwise over positions), and is a
no-op when no post with that id is present. -/
theorem patchPosts_frame (l : List Post) (u : Post) :
    (patchPosts l u).length = l.length
    ∧ (∀ i : Nat, (patchPosts l u)[i]? =
        (l[i]?).map fun p => if p.id = u.id then u else p)
    ∧ ((∀ p ∈ l, p.id ≠ u.id) → patchPosts l u = l) := by
  refine ⟨List.length_map _ _, fun i => List.getElem?_map _ _ _, fun h => ?_⟩
  induction l with
  | nil => rfl
  | cons a t ih =>
      have ha : a.id ≠ u.id := h a (List.mem_cons_self a t)
      have ht : ∀ p ∈ t, p.id ≠ u.id := fun p hp => h p (List.mem_cons_of_mem a hp)
      simp only [patchPosts, List.map_cons, if_neg ha]
      exact congrArg (a :: ·) (ih ht)

/-- C5 witness: patching with a post whose id is absent leaves the
concrete cache `[postA]` unchanged. -/
theorem patchPosts_frame_witness : patchPosts [postA] postB = [postA] :=
  (patchPosts_frame [postA] postB).2.2 (by decide)

/-- C6 counterexample: a non-ok `GET /posts` response does not leave the
cache empty and is not handled like a rejected fetch — `loadPosts`
fabricates the one-element demo placeholder list, while only the
rejected fetch yields `[]`. -/
theorem reload_httpError_fabricates_demo :
    loadPosts (FetchResult.httpError 500) "2024-01-01" ≠ []
    ∧ loadPosts (FetchResult.httpError 500) "2024-01-01"
        = [demoFallbackPost "2024-01-01"]
    ∧ loadPosts FetchResult.transportError "2024-01-01" = []
    ∧ loadPosts (FetchResult.httpError 500) "2024-01-01"
        ≠ loadPosts FetchResult.transportError "2024-01-01" := by
  refine ⟨?_, rfl, rfl, ?_⟩ <;> simp [loadPosts]

/-- C6 amended: a rejected `GET /posts` fetch empties the cache, but a
non-ok response instead installs the single fabricated demo post; the two
failure modes are handled differently. -/
theorem reload_failure_modes (st : Nat) (now : String) (data : List Post) :
    loadPosts FetchResult.transportError now = []
    ∧ loadPosts (FetchResult.httpError st) now = [demoFallbackPost now]
    ∧ (loadPosts (FetchResult.httpError st) now).length = 1
    ∧ loadPosts (FetchResult.ok data) now = data
    ∧ loadPostsRev2 FetchResult.transportError now = []
    ∧ loadPostsRev2 (FetchResult.httpError st) now = [demoFallbackPostRev2 now] :=
  ⟨rfl, rfl, rfl, rfl, rfl, rfl⟩

/-- C7 counterexample: a failed login leaves the session untouched but
signals no error whatsoever to the caller — the handler's own `catch`
swallows the thrown `Error`, so the caller never sees an
`AuthenticationFailed` signal. -/
theorem login_failure_swallows_error :
    login session0 (FetchResult.httpError 401) = (session0, none)
    ∧ (login session0 (FetchResult.httpError 401)).2
        ≠ some AuthError.authenticationFailed
    ∧ (login session0 FetchResult.transportError).2
        ≠ some AuthError.authenticationFailed := by
  refine ⟨rfl, ?_, ?_⟩ <;> simp [login]

/-- C7 amended: on success `login` replaces and persists the session
wholesale; on a non-ok response or a rejected fetch it leaves the session
(in-memory and persisted) untouched, and on every path it signals no
error to the caller. -/
theorem login_failure_session_untouched (s : SessionState) (st : Nat)
    (d : AuthResponse) :
    login s (FetchResult.httpError st) = (s, none)
    ∧ login s FetchResult.transportError = (s, none)
    ∧ login s (FetchResult.ok d)
        = ({ token := some d.token, user := some d.user,
             storedToken := some d.token, storedUser := some d.user }, none) :=
  ⟨rfl, rfl, rfl⟩

/-- C8 counterexample: after `logout` on an established session the
in-memory and persisted token and user are all `none` and the app falls
back to the login screen — no anonymous identity is obtained, so the
caller is left without a usable session. -/
theorem logout_leaves_no_session :
    (logout session0).token = none
    ∧ (logout session0).user = none
    ∧ (logout session0).storedToken = none
    ∧ (logout session0).storedUser = none
    ∧ appContentShowsLogin (logout session0) = true := by
  decide

/-- C8 amended: `logout` clears the persisted and in-memory token/user
and nothing more; no `bootstrapAnonymous` exists in the source, so the
app then renders the login screen. -/
theorem logout_clears_all (s : SessionState) :
    logout s = { token := none, user := none,
                 storedToken := none, storedUser := none }
    ∧ appContentShowsLogin (logout s) = true :=
  ⟨rfl, rfl⟩

/-- C10: the collapsed feed card shows content of at most 300 characters
unchanged (and no expand toggle); longer content is shown as exactly its
first 300 characters followed by "..." with a toggle whose expanded state
restores the full unmodified content. -/
theorem card_content_truncation (post : Post) (isExpanded : Bool) :
    (post.content.length ≤ 300 →
        displayedCardContent post isExpanded = post.content
        ∧ showsExpandToggle post = false)
    ∧ (300 < post.content.length →
        displayedCardContent post false = post.content.take 300 ++ "..."
        ∧ displayedCardContent post true = post.content
        ∧ showsExpandToggle post = true) := by
  constructor
  · intro h
    have hn : ¬ post.content.length > 300 := by omega
    cases isExpanded <;>
      simp [displayedCardContent, truncatedContent, showsExpandToggle, hn]
  · intro h
    refine ⟨?_, rfl, ?_⟩ <;>
      simp [displayedCardContent, truncatedContent, showsExpandToggle, h]

set_option maxRecDepth 4000 in
/-- C10 witness: the 301-character `longPost` renders truncated with the
toggle when collapsed and in full when expanded, and the short `postA`
renders unchanged. -/
theorem card_content_truncation_witness :
    (displayedCardContent longPost false = longPost.content.take 300 ++ "..."
      ∧ displayedCardContent longPost true = longPost.content
      ∧ showsExpandToggle longPost = true)
    ∧ displayedCardContent postA false = postA.content :=
  ⟨(card_content_truncation longPost false).2 (by decide),
   ((card_content_truncation postA false).1 (by decide)).1⟩

/-- C1 counterexample: for a concrete like on post 1 with a session token
present and a successful response, the step trace produced by the source
contains no cache mutation before the network call — the only mutation
(the `setPosts` patch) comes after the call resolves, so no optimistic
local mutation precedes the request. -/
theorem interact_no_mutation_before_request :
    ¬ specMutationBeforeRequest
        (guardedInteractTrace (some "tok") 1 "like" (FetchResult.ok likedPostA))
    ∧ ¬ specMutationBeforeRequest
        (guardedInteractTrace (some "tok") 1 "like" FetchResult.transportError) := by
  decide

/-- C1 amended: with a token present the network call is always the first
step of the interaction; the cache is mutated only after it, and only
with the server's post when that specific call resolved ok; with no token
nothing happens at all. -/
theorem interact_request_first_patch_after (tok : String) (pid : Nat)
    (act : String) (r : FetchResult Post) :
    (guardedInteractTrace (some tok) pid act r).head?
        = some (InteractStep.issueRequest pid act)
    ∧ (∀ u, InteractStep.patchCache u ∈ guardedInteractTrace (some tok) pid act r
        → r = FetchResult.ok u)
    ∧ (∀ i : Fin (guardedInteractTrace (some tok) pid act r).length,
        ((guardedInteractTrace (some tok) pid act r).get i).mutatesCache = true
        → 0 < (i : Nat))
    ∧ guardedInteractTrace none pid act r = [] := by
  cases r with
  | ok u =>
      refine ⟨rfl, ?_, ?_, rfl⟩
      · intro v hv
        simp only [guardedInteractTrace, handleInteractTrace, List.mem_cons,
          List.mem_singleton, List.not_mem_nil, or_false] at hv
        rcases hv with hv | hv
        · exact absurd hv (by simp)
        · rw [InteractStep.patchCache.injEq] at hv
          rw [hv]
      · intro i
        match i with
        | ⟨0, _⟩ =>
            intro h
            simp [guardedInteractTrace, handleInteractTrace,
              InteractStep.mutatesCache] at h
        | ⟨j + 1, _⟩ => intro _; exact Nat.succ_pos j
  | httpError st =>
      refine ⟨rfl, ?_, ?_, rfl⟩
      · intro v hv
        simp [guardedInteractTrace, handleInteractTrace] at hv
      · intro i
        match i with
        | ⟨0, _⟩ =>
            intro h
            simp [guardedInteractTrace, handleInteractTrace,
              InteractStep.mutatesCache] at h
  | transportError =>
      refine ⟨rfl, ?_, ?_, rfl⟩
      · intro v hv
        simp [guardedInteractTrace, handleInteractTrace] at hv
      · intro i
        match i with
        | ⟨0, _⟩ =>
            intro h
            simp [guardedInteractTrace, handleInteractTrace,
              InteractStep.mutatesCache] at h

/-- C1 amended witness: the concrete successful like on post 1 starts
with its network call, and the patch step in its trace carries exactly
the resolved response. -/
theorem interact_request_first_patch_after_witness :
    (guardedInteractTrace (some "tok") 1 "like" (FetchResult.ok likedPostA)).head?
        = some (InteractStep.issueRequest 1 "like")
    ∧ FetchResult.ok likedPostA = FetchResult.ok likedPostA :=
  ⟨(interact_request_first_patch_after "tok" 1 "like" (FetchResult.ok likedPostA)).1,
   (interact_request_first_patch_after "tok" 1 "like"
      (FetchResult.ok likedPostA)).2.1 likedPostA (by decide)⟩

/-- C3 counterexample: with post 1 shown both as a feed card and as the
open detail view, a successful like leaves the two views showing
different likes counts and different viewer flags — `handleInteract`
patches the collection but never the selected-post projection. -/
theorem detail_view_diverges_after_like :
    (feedCardView
        (handleInteract ⟨[postA], some postA⟩ (FetchResult.ok likedPostA)) 1).map
        Post.likes
      ≠ (detailViewPost
          (handleInteract ⟨[postA], some postA⟩ (FetchResult.ok likedPostA))).map
          Post.likes
    ∧ (feedCardView
        (handleInteract ⟨[postA], some postA⟩ (FetchResult.ok likedPostA)) 1).map
        Post.user_liked
      ≠ (detailViewPost
          (handleInteract ⟨[postA], some postA⟩ (FetchResult.ok likedPostA))).map
          Post.user_liked := by
  decide

/-- C3 amended: an interaction is not mirrored onto the detail view: the
selected-post projection is left exactly as it was on every response,
while on success the collection cache alone is patched with the server's
post, so the detail view keeps showing the pre-interaction snapshot. -/
theorem interact_preserves_selectedPost (s : BlogAppState) (u : Post)
    (r : FetchResult Post) :
    (handleInteract s r).selectedPost = s.selectedPost
    ∧ detailViewPost (handleInteract s r) = detailViewPost s
    ∧ (handleInteract s (FetchResult.ok u)).posts = patchPosts s.posts u := by
  refine ⟨?_, ?_, rfl⟩ <;> cases r <;> rfl

/-- C4 counterexample: after a transport failure of the like call on the
concrete cache `[postA]`, the cache is exactly what it was (the
counters show `postA`'s 5 likes, not the 7 of a fresh reload), the state
is unchanged on a non-ok response too, and the interaction trace contains
no reload step at all. -/
theorem failed_interact_no_reload :
    handleInteract ⟨[postA], none⟩ FetchResult.transportError = ⟨[postA], none⟩
    ∧ (handleInteract ⟨[postA], none⟩ FetchResult.transportError).posts
        ≠ loadPosts (FetchResult.ok [freshPostA]) "2024-01-01"
    ∧ InteractStep.reloadCache ∉ handleInteractTrace 1 "like" FetchResult.transportError
    ∧ handleInteract ⟨[postA], none⟩ (FetchResult.httpError 500) = ⟨[postA], none⟩ := by
  decide

/-- C4 amended: there is no optimistic state to discard: in the primary
revision a failed like/dislike call — non-ok response or rejected fetch —
leaves the cache exactly as it was, with no reload and no retry; only the
older revision reloads, and it does so on a rejected fetch but not on a
non-ok response. -/
theorem failed_interact_leaves_cache (s : BlogAppState) (st pid : Nat)
    (act : String) (posts : List Post)
    (reloadResult : FetchResult (List Post)) (now : String) :
    handleInteract s FetchResult.transportError = s
    ∧ handleInteract s (FetchResult.httpError st) = s
    ∧ (∀ t ∈ handleInteractTrace pid act FetchResult.transportError,
        InteractStep.mutatesCache t = false)
    ∧ (∀ t ∈ handleInteractTrace pid act (FetchResult.httpError st),
        InteractStep.mutatesCache t = false)
    ∧ handleInteractRev2 posts FetchResult.transportError reloadResult now
        = loadPostsRev2 reloadResult now
    ∧ handleInteractRev2 posts (FetchResult.httpError st) reloadResult now
        = posts := by
  refine ⟨rfl, rfl, ?_, ?_, rfl, rfl⟩ <;>
    · intro t ht
      simp only [handleInteractTrace, List.mem_singleton] at ht
      rw [ht]
      rfl

/-- C4 amended witness: the single step of the concrete failed like on
post 1 is the request itself, which mutates nothing. -/
theorem failed_interact_leaves_cache_witness :
    InteractStep.mutatesCache (InteractStep.issueRequest 1 "like") = false :=
  (failed_interact_leaves_cache ⟨[postA], none⟩ 500 1 "like" [postA]
      FetchResult.transportError "2024-01-01").2.2.1
    (InteractStep.issueRequest 1 "like") (by decide)

/-- Well-formedness of the interaction fields is preserved by one
toggle. -/
theorem goodInteraction_applyToggle (a : InteractAction) (p : Post)
    (h : GoodInteraction p) : GoodInteraction (applyToggle a p) := by
  obtain ⟨hme, hl, hd⟩ := h
  cases a <;>
    cases hpl : p.user_liked <;> cases hpd : p.user_disliked <;>
      simp_all [applyToggle, GoodInteraction]

/-- Well-formedness of the interaction fields is preserved by any toggle
sequence. -/
theorem goodInteraction_runToggles (acts : List InteractAction) (p : Post)
    (h : GoodInteraction p) : GoodInteraction (runToggles acts p) := by
  induction acts generalizing p with
  | nil => exact h
  | cons a rest ih => exact ih (applyToggle a p) (goodInteraction_applyToggle a p h)

/-- One toggle changes the likes counter by exactly the like-activation
minus the like-deactivation it performs. -/
theorem likes_applyToggle (a : InteractAction) (p : Post)
    (h : GoodInteraction p) :
    ((applyToggle a p).likes : Int)
      = (p.likes : Int)
        + (if !p.user_liked && (applyToggle a p).user_liked then 1 else 0)
        - (if p.user_liked && !(applyToggle a p).user_liked then 1 else 0) := by
  obtain ⟨hme, hl, hd⟩ := h
  cases a <;>
    cases hpl : p.user_liked <;> cases hpd : p.user_disliked <;>
      simp_all [applyToggle]

/-- One toggle changes the dislikes counter by exactly the
dislike-activation minus the dislike-deactivation it performs. -/
theorem dislikes_applyToggle (a : InteractAction) (p : Post)
    (h : GoodInteraction p) :
    ((applyToggle a p).dislikes : Int)
      = (p.dislikes : Int)
        + (if !p.user_disliked && (applyToggle a p).user_disliked then 1 else 0)
        - (if p.user_disliked && !(applyToggle a p).user_disliked then 1 else 0) := by
  obtain ⟨hme, hl, hd⟩ := h
  cases a <;>
    cases hpl : p.user_liked <;> cases hpd : p.user_disliked <;>
      simp_all [applyToggle]

/-- Over a whole toggle sequence the likes counter moves by the net
number of like-activations minus like-deactivations. -/
theorem likes_net (acts : List InteractAction) (p : Post)
    (h : GoodInteraction p) :
    ((runToggles acts p).likes : Int) - (p.likes : Int)
      = (likeActivations acts p : Int) - (likeDeactivations acts p : Int) := by
  induction acts generalizing p with
  | nil => simp [runToggles, likeActivations, likeDeactivations]
  | cons a rest ih =>
      have hq := goodInteraction_applyToggle a p h
      have hstep := likes_applyToggle a p h
      have hrest := ih (applyToggle a p) hq
      have hrun : runToggles (a :: rest) p = runToggles rest (applyToggle a p) := rfl
      have hA : likeActivations (a :: rest) p
          = (if !p.user_liked && (applyToggle a p).user_liked then 1 else 0)
            + likeActivations rest (applyToggle a p) := rfl
      have hD : likeDeactivations (a :: rest) p
          = (if p.user_liked && !(applyToggle a p).user_liked then 1 else 0)
            + likeDeactivations rest (applyToggle a p) := rfl
      rw [hrun, hA, hD]
      push_cast [Nat.cast_ite]
      split_ifs at hstep ⊢ <;> omega

/-- Over a whole toggle sequence the dislikes counter moves by the net
number of dislike-activations minus dislike-deactivations. -/
theorem dislikes_net (acts : List InteractAction) (p : Post)
    (h : GoodInteraction p) :
    ((runToggles acts p).dislikes : Int) - (p.dislikes : Int)
      = (dislikeActivations acts p : Int) - (dislikeDeactivations acts p : Int) := by
  induction acts generalizing p with
  | nil => simp [runToggles, dislikeActivations, dislikeDeactivations]
  | cons a rest ih =>
      have hq := goodInteraction_applyToggle a p h
      have hstep := dislikes_applyToggle a p h
      have hrest := ih (applyToggle a p) hq
      have hrun : runToggles (a :: rest) p = runToggles rest (applyToggle a p) := rfl
      have hA : dislikeActivations (a :: rest) p
          = (if !p.user_disliked && (applyToggle a p).user_disliked then 1 else 0)
            + dislikeActivations rest (applyToggle a p) := rfl
      have hD : dislikeDeactivations (a :: rest) p
          = (if p.user_disliked && !(applyToggle a p).user_disliked then 1 else 0)
            + dislikeDeactivations rest (applyToggle a p) := rfl
      rw [hrun, hA, hD]
      push_cast [Nat.cast_ite]
      split_ifs at hstep ⊢ <;> omega

/-- C2: over every sequence of like/dislike toggles from a well-formed
post, the two viewer flags stay mutually exclusive, each counter moves by
the net number of its activations minus deactivations, and a single
toggle-on increments its counter by one, clears the opposite flag, and
decrements the opposite counter exactly when that flag was set. -/
theorem toggle_invariants (p : Post) (acts : List InteractAction)
    (h : GoodInteraction p) :
    ¬((runToggles acts p).user_liked = true
        ∧ (runToggles acts p).user_disliked = true)
    ∧ ((runToggles acts p).likes : Int) - (p.likes : Int)
        = (likeActivations acts p : Int) - (likeDeactivations acts p : Int)
    ∧ ((runToggles acts p).dislikes : Int) - (p.dislikes : Int)
        = (dislikeActivations acts p : Int) - (dislikeDeactivations acts p : Int)
    ∧ (p.user_liked = false →
        (applyToggle InteractAction.like p).user_liked = true
        ∧ (applyToggle InteractAction.like p).likes = p.likes + 1
        ∧ (applyToggle InteractAction.like p).user_disliked = false
        ∧ (p.user_disliked = true →
            (applyToggle InteractAction.like p).dislikes = p.dislikes - 1)
        ∧ (p.user_disliked = false →
            (applyToggle InteractAction.like p).dislikes = p.dislikes))
    ∧ (p.user_disliked = false →
        (applyToggle InteractAction.dislike p).user_disliked = true
        ∧ (applyToggle InteractAction.dislike p).dislikes = p.dislikes + 1
        ∧ (applyToggle InteractAction.dislike p).user_liked = false
        ∧ (p.user_liked = true →
            (applyToggle InteractAction.dislike p).likes = p.likes - 1)
        ∧ (p.user_liked = false →
            (applyToggle InteractAction.dislike p).likes = p.likes)) := by
  refine ⟨(goodInteraction_runToggles acts p h).1, likes_net acts p h,
    dislikes_net acts p h, ?_, ?_⟩
  · intro hpl
    refine ⟨?_, ?_, ?_, ?_, ?_⟩ <;>
      simp [applyToggle, hpl] <;> intro hpd <;> simp [hpd]
  · intro hpd
    refine ⟨?_, ?_, ?_, ?_, ?_⟩ <;>
      simp [applyToggle, hpd] <;> intro hpl <;> simp [hpl]

/-- C2 witness: the specification's section 8 scenario — like, like,
dislike from the all-zero post — satisfies the mutual-exclusion and
net-counter equations. -/
theorem toggle_invariants_witness :
    ¬((runToggles [InteractAction.like, InteractAction.like,
          InteractAction.dislike] scenarioPost).user_liked = true
        ∧ (runToggles [InteractAction.like, InteractAction.like,
            InteractAction.dislike] scenarioPost).user_disliked = true)
    ∧ ((runToggles [InteractAction.like, InteractAction.like,
          InteractAction.dislike] scenarioPost).likes : Int)
        - (scenarioPost.likes : Int)
        = (likeActivations [InteractAction.like, InteractAction.like,
            InteractAction.dislike] scenarioPost : Int)
          - (likeDeactivations [InteractAction.like, InteractAction.like,
              InteractAction.dislike] scenarioPost : Int) :=
  ⟨(toggle_invariants scenarioPost [InteractAction.like, InteractAction.like,
      InteractAction.dislike] (by decide)).1,
   (toggle_invariants scenarioPost [InteractAction.like, InteractAction.like,
      InteractAction.dislike] (by decide)).2.1⟩

/-- Incrementing `comment_count` on matching entries commutes with
looking up the entry by id: the found entry is the old one with its count
incremented. -/
theorem find?_map_commentPatch (l : List Post) (postId : Nat) :
    (l.map fun p =>
        if p.id = postId then { p with comment_count := p.comment_count + 1 }
        else p).find? (fun q => q.id == postId)
      = (l.find? fun q => q.id == postId).map
          fun p => { p with comment_count := p.comment_count + 1 } := by
  induction l with
  | nil => rfl
  | cons a t ih =>
      by_cases ha : a.id = postId
      · simp [List.find?_cons, ha]
      · simp [List.find?_cons, ha, ih]

/-- C9: when the client views are in sync with the backend and a comment
is posted successfully, the matching feed-card entry in the collection
cache shows `comment_count` larger by exactly one, every other entry and
the list order are untouched, and the new comment appears at the end of
the detail view's locally held comment sequence. -/
theorem comment_success_updates_views (srv : ServerState) (postId : Nat)
    (c : Comment) (views : CommentViews) (p : Post) (now : String)
    (hsync : views.cachePosts = srv.posts)
    (hcomments : views.modalComments = srv.commentsFor postId)
    (hfind : views.cachePosts.find? (fun q => q.id == postId) = some p) :
    (handleCommentSuccess srv postId c views now).cachePosts.find?
        (fun q => q.id == postId)
      = some { p with comment_count := p.comment_count + 1 }
    ∧ (handleCommentSuccess srv postId c views now).modalComments
        = views.modalComments ++ [c]
    ∧ ∀ i : Nat,
        ((handleCommentSuccess srv postId c views now).cachePosts)[i]?
          = (views.cachePosts)[i]?.map fun q =>
              if q.id = postId then { q with comment_count := q.comment_count + 1 }
              else q := by
  have hcache : (handleCommentSuccess srv postId c views now).cachePosts
      = views.cachePosts.map fun q =>
          if q.id = postId then { q with comment_count := q.comment_count + 1 }
          else q := by
    simp [handleCommentSuccess, serverPostComment, loadPosts, hsync]
  refine ⟨?_, ?_, ?_⟩
  · rw [hcache, find?_map_commentPatch, hfind]; rfl
  · simp [handleCommentSuccess, serverPostComment, loadComments, hcomments]
  · intro i
    rw [hcache]
    exact List.getElem?_map _ _ _

/-- C9 witness: posting the concrete comment against post 1 of the
concrete in-sync state raises the feed card's `comment_count` from 2 to 3
and appends the comment to the (previously empty) modal sequence. -/
theorem comment_success_updates_views_witness :
    (handleCommentSuccess srv0 1 comment0 views0 "2024-01-02").cachePosts.find?
        (fun q => q.id == 1)
      = some { postA with comment_count := postA.comment_count + 1 }
    ∧ (handleCommentSuccess srv0 1 comment0 views0 "2024-01-02").modalComments
        = views0.modalComments ++ [comment0] :=
  ⟨(comment_success_updates_views srv0 1 comment0 views0 postA "2024-01-02"
      rfl rfl (by decide)).1,
   (comment_success_updates_views srv0 1 comment0 views0 postA "2024-01-02"
      rfl rfl (by decide)).2.1⟩
